import Mathlib

/-!
Shallow embedding of the `aresponses` mock HTTP server
(`src/aresponses/main.py`): the pattern matcher, the expectation queue,
the resolution engine (`_find_response`), the passthrough header relay,
and the lifecycle override install/restore of `__aenter__`/`__aexit__`.
-/

namespace Aresponses

/-- Modelled from the spec: patterns come from `aresponses/utils.py`, which is
not among the provided sources.  Per spec section 4.1 a pattern is one of an
exact string, the wildcard-match-all sentinel `ANY`, or an arbitrary matcher
object exposing a "does this string match" capability. -/
inductive Pattern where
  | any : Pattern
  | str : String → Pattern
  | matcher : (String → Bool) → Pattern

/-- Modelled from the spec: `_text_matches_pattern` from `aresponses/utils.py`
(not among the provided sources).  Per spec section 4.1: the wildcard sentinel
always matches; a plain string matches by equality (lowercase normalization
happens at the call sites, not here); a matcher object is delegated to. -/
def _text_matches_pattern : Pattern → String → Bool
  | Pattern.any, _ => true
  | Pattern.str s, value => s == value
  | Pattern.matcher f, value => f value

/-- The wildcard sentinel `ANY` re-exported by `ResponsesMockServer`. -/
def ANY : Pattern := Pattern.any

/-- Python's `str.lower()`, character by character.  (Defined over the
character list so that it reduces by computation; `String.toLower` itself is
defined by well-founded recursion over byte positions.) -/
def pyLower (s : String) : String := ⟨s.data.map Char.toLower⟩

/-- Values flowing through response resolution: a Python `str`, a
`web.Response` (body and status), a coroutine/awaitable object wrapping the
value that awaiting it would yield, or some other opaque object. -/
inductive PyValue where
  | str : String → PyValue
  | response : String → Nat → PyValue
  | awaitable : PyValue → PyValue
  | other : String → PyValue

/-- The fields of the inbound aiohttp request that `_find_response` reads:
`request.host`, `request.path`, `request.path_qs`, `request.method`. -/
structure Request where
  host : String
  path : String
  path_qs : String
  method : String

/-- A registered `response` argument of `add`: a non-callable value, a plain
callable (`callable(response)` true, `asyncio.iscoroutinefunction(response)`
false), or a coroutine function (both true).  A coroutine function with body
`g` yields, when called, a coroutine object whose awaited value is `g request`. -/
inductive Producer where
  | value : PyValue → Producer
  | syncFn : (Request → PyValue) → Producer
  | coroFn : (Request → PyValue) → Producer

/-- One entry of `self._responses`: the tuple
`(host, path, method, response, match_querystring)` appended by `add`. -/
structure Expectation where
  host : Pattern
  path : Pattern
  method : Pattern
  response : Producer
  match_querystring : Bool

/-- The mutable state of a `ResponsesMockServer`: the expectation queue
`self._responses`, the diagnostic host-pattern set `self._host_patterns`
(a Python `set`; modelled as a list, which only feeds the existential
`_host_matches` and is therefore insensitive to duplicates and order),
the session exception slot `self._exception`, and whether
`self._loop.stop()` has been called. -/
structure ResponsesMockServer where
  _responses : List Expectation
  _host_patterns : List Pattern
  _exception : Option String
  loop_stopped : Bool

/-- `__init__`: empty queue, empty host-pattern set, empty exception slot. -/
def ResponsesMockServer.init : ResponsesMockServer :=
  { _responses := [], _host_patterns := [], _exception := none,
    loop_stopped := false }

/-- `if isinstance(x, str): x = x.lower()` applied to a pattern: only plain
strings are lowercased; the sentinel and matcher objects are left as-is. -/
def lowerPattern : Pattern → Pattern
  | Pattern.str s => Pattern.str (pyLower s)
  | p => p

/-- `add(host, path, method, response, match_querystring)`: lowercases `host`
and `method` when they are plain strings, records the (lowercased) host into
the host-pattern set, and appends the expectation to the queue. -/
def ResponsesMockServer.add (st : ResponsesMockServer) (host path method : Pattern)
    (response : Producer) (match_querystring : Bool) : ResponsesMockServer :=
  { st with
    _host_patterns := st._host_patterns ++ [lowerPattern host],
    _responses := st._responses ++
      [{ host := lowerPattern host, path := path, method := lowerPattern method,
         response := response, match_querystring := match_querystring }] }

/-- `_host_matches`: lowercases the concrete host, then asks whether any
registered host pattern matches it.  (Diagnostic helper; `_find_response`
does not call it.) -/
def _host_matches (st : ResponsesMockServer) (match_host : String) : Bool :=
  st._host_patterns.any fun host_pattern =>
    _text_matches_pattern host_pattern (pyLower match_host)

/-- Calling a registered response object: a sync callable returns its result
directly; a coroutine function returns a coroutine object (awaitable). -/
def callProducer : Producer → Request → PyValue
  | Producer.value v, _ => v
  | Producer.syncFn f, req => f req
  | Producer.coroFn g, req => PyValue.awaitable (g req)

/-- `await`: unwraps an awaitable, yielding the value the coroutine produces. -/
def pyAwait : PyValue → PyValue
  | PyValue.awaitable v => v
  | v => v

/-- The response-producer dispatch in `_find_response` after a confirmed
match: `if callable(response)` then, when `asyncio.iscoroutinefunction`,
`return await response(request)`, else `return response(request)` unawaited;
`if isinstance(response, str)` then `return self.Response(body=response)`
(`web.Response` with its default status 200); otherwise return it as-is. -/
def resolveResponse : Producer → Request → PyValue
  | Producer.coroFn g, req => pyAwait (callProducer (Producer.coroFn g) req)
  | Producer.syncFn f, req => callProducer (Producer.syncFn f) req
  | Producer.value (PyValue.str s), _ => PyValue.response s 200
  | Producer.value v, _ => v

/-- The path test of `_find_response`:
`(not match_querystring and _text_matches_pattern(path_pattern, path)) or
 (match_querystring and _text_matches_pattern(path_pattern, path_qs))`. -/
def pathMatches (e : Expectation) (req : Request) : Bool :=
  (!e.match_querystring && _text_matches_pattern e.path req.path) ||
    (e.match_querystring && _text_matches_pattern e.path req.path_qs)

/-- A request fully matches an expectation when host AND path AND method all
match (the method compared against `request.method.lower()`). -/
def fullyMatches (req : Request) (e : Expectation) : Bool :=
  _text_matches_pattern e.host req.host &&
    (pathMatches e req && _text_matches_pattern e.method (pyLower req.method))

/-- Outcome of the matching loop of `_find_response`: the produced response
(if any entry fully matched), the queue after `del self._responses[i]`, and
the final `host_matched` / `path_matched` diagnostic flags. -/
structure LoopResult where
  response : Option PyValue
  remaining : List Expectation
  host_matched : Bool
  path_matched : Bool

/-- This entry is kept in the queue (`i += 1`); iteration continues. -/
def LoopResult.keep (e : Expectation) (r : LoopResult) : LoopResult :=
  ⟨r.response, e :: r.remaining, r.host_matched, r.path_matched⟩

/-- The `for ... in self._responses` loop of `_find_response`, carrying the
`host_matched` and `path_matched` flags.  On the first full match the entry
is deleted by index and resolution returns; otherwise the entry is kept. -/
def findLoop (req : Request) : List Expectation → Bool → Bool → LoopResult
  | [], host_matched, path_matched => ⟨none, [], host_matched, path_matched⟩
  | e :: rest, host_matched, path_matched =>
    if _text_matches_pattern e.host req.host then
      if pathMatches e req then
        if _text_matches_pattern e.method (pyLower req.method) then
          ⟨some (resolveResponse e.response req), rest, true, true⟩
        else
          LoopResult.keep e (findLoop req rest true true)
      else
        LoopResult.keep e (findLoop req rest true path_matched)
    else
      LoopResult.keep e (findLoop req rest host_matched path_matched)

/-- Python's `str` of a `bool`, as interpolated into the failure f-string. -/
def pyBool : Bool → String
  | true => "True"
  | false => "False"

/-- The message of the No-Match Error:
`f"No Match found for {host} {path} {method}.  Host Match: {host_matched}  Path Match: {path_matched}"`. -/
def noMatchMsg (host path method : String) (hm pm : Bool) : String :=
  "No Match found for " ++ host ++ " " ++ path ++ " " ++ method ++
    ".  Host Match: " ++ pyBool hm ++ "  Path Match: " ++ pyBool pm

/-- `_find_response(request)`: run the matching loop; on a full match return
the resolved response with the matched entry consumed; otherwise store the
No-Match Error in `self._exception` (an unconditional assignment), call
`self._loop.stop()`, and raise the error. -/
def _find_response (st : ResponsesMockServer) (req : Request) :
    ResponsesMockServer × Except String PyValue :=
  match findLoop req st._responses false false with
  | ⟨some v, remaining, _, _⟩ =>
      ({ st with _responses := remaining }, Except.ok v)
  | ⟨none, remaining, hostm, pathm⟩ =>
      ({ st with _responses := remaining,
                 _exception := some (noMatchMsg req.host req.path req.method hostm pathm),
                 loop_stopped := true },
       Except.error (noMatchMsg req.host req.path req.method hostm pathm))

end Aresponses

namespace Aresponses

/-- An abstract value held by one of the three process-wide hooks on the
shared aiohttp client machinery (`TCPConnector._resolve_host`,
`ClientRequest.is_ssl`, `ClientRequest.__init__`): either some pre-session
original, or one of the session's replacement functions. -/
inductive Hook where
  | original : String → Hook
  | resolverMock : Hook
  | isSslMock : Hook
  | requestInitMock : Hook
deriving DecidableEq

/-- The three process-wide attributes overridden for the session:
`TCPConnector._resolve_host`, `ClientRequest.is_ssl`, `ClientRequest.__init__`. -/
structure ClientGlobals where
  resolve_host : Hook
  is_ssl : Hook
  request_init : Hook
deriving DecidableEq

/-- The snapshots `__aenter__` stores on the server instance:
`self._old_resolver_mock`, `self._old_is_ssl`, `self._old_init`. -/
structure SavedHooks where
  old_resolver_mock : Hook
  old_is_ssl : Hook
  old_init : Hook
deriving DecidableEq

/-- The override-installation effect of `__aenter__`: saves each current hook
into the server instance, then installs the session's resolver mock, forced
`is_ssl = False` detection, and wrapped request construction. -/
def aenterHooks (g : ClientGlobals) : ClientGlobals × SavedHooks :=
  ({ resolve_host := Hook.resolverMock, is_ssl := Hook.isSslMock,
     request_init := Hook.requestInitMock },
   { old_resolver_mock := g.resolve_host, old_is_ssl := g.is_ssl,
     old_init := g.request_init })

/-- The effect of `__aexit__` on the hooks and the failure it then reports:
it reassigns `TCPConnector._resolve_host` and `ClientRequest.is_ssl` from the
saved snapshots, but contains no `ClientRequest.__init__ = self._old_init`
statement, so the request-construction hook is left as it was; afterwards
(second component) the stored `self._exception`, if any, is reported via
`pytest.fail`. -/
def aexitHooks (g : ClientGlobals) (s : SavedHooks) (exception : Option String) :
    ClientGlobals × Option String :=
  ({ g with resolve_host := s.old_resolver_mock, is_ssl := s.old_is_ssl },
   exception)

/-- A real HTTP response as seen by `passthrough`: status code, text body,
and headers (an association list of name/value pairs). -/
structure RealResponse where
  status : Nat
  text : String
  headers : List (String × String)
deriving DecidableEq

/-- `passthrough_headers = ("content-type",)`. -/
def passthrough_headers : List String := ["content-type"]

/-- The outbound header filter of `passthrough`:
`{k: v for k, v in request.headers.items() if k != "AResponsesIsSSL"}`. -/
def stripSideChannel (headers : List (String × String)) : List (String × String) :=
  headers.filter fun kv => kv.1 != "AResponsesIsSSL"

/-- The response-relaying step of `passthrough`: keep the real status and
text, and of the real headers keep only those whose lowercased name is in
`passthrough_headers` (`{k: v for k, v in r.headers.items() if k.lower() in
self.passthrough_headers}`). -/
def passthroughRelay (r : RealResponse) : RealResponse :=
  { status := r.status, text := r.text,
    headers := r.headers.filter fun kv => passthrough_headers.contains (pyLower kv.1) }

/-- The request `GET http://example.com/ping` (no query string). -/
def reqPing : Request := ⟨"example.com", "/ping", "/ping", "GET"⟩

/-- A server with the single registration
`add("example.com", "/ping", "GET", "pong")`. -/
def sPing : ResponsesMockServer :=
  ResponsesMockServer.init.add (Pattern.str "example.com") (Pattern.str "/ping")
    (Pattern.str "GET") (Producer.value (PyValue.str "pong")) false

/-- A request to `one.com`, used to trigger a first No-Match Error. -/
def reqOne : Request := ⟨"one.com", "/", "/", "GET"⟩

/-- A request to `two.com`, used to trigger a second No-Match Error. -/
def reqTwo : Request := ⟨"two.com", "/", "/", "GET"⟩

/-- A request whose host matches no registration of `st2`. -/
def reqOther : Request := ⟨"other.com", "/", "/", "GET"⟩

/-- First expectation of the two-entry queue `st2`. -/
def E1c : Expectation :=
  { host := Pattern.str "example.com", path := Pattern.any, method := Pattern.any,
    response := Producer.value (PyValue.str "r1"), match_querystring := false }

/-- Second expectation of the two-entry queue `st2`. -/
def E2c : Expectation :=
  { host := Pattern.str "example.com", path := Pattern.any, method := Pattern.any,
    response := Producer.value (PyValue.str "r2"), match_querystring := false }

/-- A server holding two expectations that both fully match `reqPing`. -/
def st2 : ResponsesMockServer :=
  { _responses := [E1c, E2c], _host_patterns := [Pattern.str "example.com"],
    _exception := none, loop_stopped := false }

/-- A server with the single registration `add("Example.com", ANY, ANY, "x")`
(the host pattern is stored lowercased). -/
def sCase : ResponsesMockServer :=
  ResponsesMockServer.init.add (Pattern.str "Example.com") Pattern.any Pattern.any
    (Producer.value (PyValue.str "x")) false

/-- A request whose host differs from the pattern of `sCase` only in case. -/
def reqCase : Request := ⟨"Example.COM", "/", "/", "GET"⟩

/-- A real response carrying a content-type header, a custom header, and the
internal side-channel header. -/
def realResp : RealResponse :=
  { status := 503, text := "real body",
    headers := [("Content-Type", "text/html"), ("X-Custom", "1"),
                ("AResponsesIsSSL", "1")] }

end Aresponses

namespace Aresponses

/-- An entry that does not fully match is kept, and iteration continues on
the rest of the queue with some updated diagnostic flags. -/
theorem findLoop_cons_skip (req : Request) (e : Expectation)
    (rest : List Expectation) (hm pm : Bool) (h : fullyMatches req e = false) :
    ∃ hm' pm', findLoop req (e :: rest) hm pm
      = LoopResult.keep e (findLoop req rest hm' pm') := by
  unfold fullyMatches at h
  cases h1 : _text_matches_pattern e.host req.host with
  | false =>
    refine ⟨hm, pm, ?_⟩
    simp [findLoop, h1]
  | true =>
    cases h2 : pathMatches e req with
    | false =>
      refine ⟨true, pm, ?_⟩
      simp [findLoop, h1, h2]
    | true =>
      cases h3 : _text_matches_pattern e.method (pyLower req.method) with
      | false =>
        refine ⟨true, true, ?_⟩
        simp [findLoop, h1, h2, h3]
      | true =>
        rw [h1, h2, h3] at h
        simp at h

/-- If no entry of the queue fully matches, the loop produces no response
and reconstructs the queue unchanged. -/
theorem findLoop_all_skip (req : Request) (l : List Expectation)
    (h : ∀ e ∈ l, fullyMatches req e = false) :
    ∀ hm pm, (findLoop req l hm pm).response = none
      ∧ (findLoop req l hm pm).remaining = l := by
  induction l with
  | nil => intro hm pm; exact ⟨rfl, rfl⟩
  | cons e rest ih =>
    intro hm pm
    obtain ⟨hm', pm', heq⟩ :=
      findLoop_cons_skip req e rest hm pm (h e (List.mem_cons_self e rest))
    have ih' := ih (fun x hx => h x (List.mem_cons_of_mem e hx)) hm' pm'
    rw [heq]
    exact ⟨by simp [LoopResult.keep, ih'.1], by simp [LoopResult.keep, ih'.2]⟩

/-- A fully matching entry at the head of the queue is consumed: the loop
returns its resolved response, drops it from the queue, and reports both
diagnostic flags true. -/
theorem findLoop_full_head (req : Request) (e : Expectation)
    (rest : List Expectation) (hm pm : Bool) (h : fullyMatches req e = true) :
    findLoop req (e :: rest) hm pm
      = ⟨some (resolveResponse e.response req), rest, true, true⟩ := by
  unfold fullyMatches at h
  simp only [Bool.and_eq_true] at h
  obtain ⟨h1, h2, h3⟩ := h
  simp [findLoop, h1, h2, h3]

/-- First-match-wins: with no full match before `e` and `e` fully matching,
the loop resolves `e` and removes exactly `e` from the queue. -/
theorem findLoop_first (req : Request) (l1 : List Expectation)
    (e : Expectation) (l2 : List Expectation)
    (hskip : ∀ x ∈ l1, fullyMatches req x = false)
    (he : fullyMatches req e = true) :
    ∀ hm pm, findLoop req (l1 ++ e :: l2) hm pm
      = ⟨some (resolveResponse e.response req), l1 ++ l2, true, true⟩ := by
  induction l1 with
  | nil =>
    intro hm pm
    simpa using findLoop_full_head req e l2 hm pm he
  | cons a t ih =>
    intro hm pm
    obtain ⟨hm', pm', heq⟩ :=
      findLoop_cons_skip req a (t ++ e :: l2) hm pm (hskip a (List.mem_cons_self a t))
    have ih' := ih (fun x hx => hskip x (List.mem_cons_of_mem a hx)) hm' pm'
    simp only [List.cons_append]
    rw [heq, ih']
    simp [LoopResult.keep]

end Aresponses

namespace Aresponses

/-- Claim C1: for every session and every two registered expectations E1
before E2, a request that fully matches (host AND path AND method) both is
resolved against E1 (with E1 the first fully matching entry), and exactly
that entry is removed from the queue, so consumption is at most once. -/
theorem c1_first_match_wins (st : ResponsesMockServer) (req : Request)
    (l1 l2 l3 : List Expectation) (E1 E2 : Expectation)
    (hsplit : st._responses = l1 ++ E1 :: (l2 ++ E2 :: l3))
    (hbefore : ∀ x ∈ l1, fullyMatches req x = false)
    (h1 : fullyMatches req E1 = true)
    (_h2 : fullyMatches req E2 = true) :
    (_find_response st req).2 = Except.ok (resolveResponse E1.response req)
      ∧ (_find_response st req).1._responses = l1 ++ (l2 ++ E2 :: l3) := by
  unfold _find_response
  rw [hsplit, findLoop_first req l1 E1 (l2 ++ E2 :: l3) hbefore h1 false false]
  exact ⟨rfl, rfl⟩

/-- Witness for C1 on a concrete two-entry queue both of whose entries fully
match the request: the first entry is resolved and removed, the second stays. -/
theorem c1_witness :
    (_find_response st2 reqPing).2 = Except.ok (resolveResponse E1c.response reqPing)
      ∧ (_find_response st2 reqPing).1._responses = [] ++ ([] ++ E2c :: []) :=
  c1_first_match_wins st2 reqPing [] [] [] E1c E2c rfl
    (fun x hx => absurd hx (List.not_mem_nil x)) (by decide) (by decide)

/-- Counterexample to claim C2: in the register-once / request-twice scenario
the second request records a No-Match Error whose flags read
`Host Match: False  Path Match: False`, not `True  True` — the queue is empty
once the only expectation has been consumed. -/
theorem c2_counterexample :
    (_find_response (_find_response sPing reqPing).1 reqPing).1._exception
        = some (noMatchMsg "example.com" "/ping" "GET" false false)
      ∧ noMatchMsg "example.com" "/ping" "GET" false false
          ≠ noMatchMsg "example.com" "/ping" "GET" true true :=
  ⟨rfl, by decide⟩

/-- Claim C2 (amended): with `add("example.com", "/ping", "GET", "pong")`
registered, a first `GET http://example.com/ping` returns body `"pong"` with
status 200 and consumes the expectation; an identical second request records
a No-Match Error whose message reports `host_matched=False` and
`path_matched=False` (the queue is empty, so the loop never sets the flags). -/
theorem c2_scenario :
    (_find_response sPing reqPing).2 = Except.ok (PyValue.response "pong" 200)
      ∧ (_find_response sPing reqPing).1._responses = []
      ∧ (_find_response (_find_response sPing reqPing).1 reqPing).2
          = Except.error (noMatchMsg "example.com" "/ping" "GET" false false)
      ∧ (_find_response (_find_response sPing reqPing).1 reqPing).1._exception
          = some (noMatchMsg "example.com" "/ping" "GET" false false) :=
  ⟨rfl, rfl, rfl, rfl⟩

/-- Counterexample to claim C3: `add("Example.com", ANY, ANY, "x")` stores the
lowercased pattern, yet a request whose host is `"Example.COM"` — the same
host up to letter case — fails to match: `_find_response` compares the stored
pattern with the raw request host, and the diagnostic flags stay `False`. -/
theorem c3_counterexample :
    sCase._responses = [{ host := Pattern.str "example.com", path := Pattern.any,
                          method := Pattern.any,
                          response := Producer.value (PyValue.str "x"),
                          match_querystring := false }]
      ∧ pyLower reqCase.host = "example.com"
      ∧ (_find_response sCase reqCase).2
          = Except.error (noMatchMsg "Example.COM" "/" "GET" false false) :=
  ⟨rfl, rfl, rfl⟩

/-- Claim C3 (amended): plain-string host patterns are lowercased at
registration, but during resolution the pattern is compared against the
request host exactly as received (no lowercasing at match time); the
lowercase-at-match-time normalization exists only in the separate
`_host_matches` diagnostic helper. -/
theorem c3_lowercase_registration_only (st : ResponsesMockServer) (h : String)
    (path method : Pattern) (resp : Producer) (mq : Bool) (req : Request) :
    (st.add (Pattern.str h) path method resp mq)._responses
        = st._responses ++ [{ host := Pattern.str (pyLower h), path := path,
                              method := lowerPattern method, response := resp,
                              match_querystring := mq }]
      ∧ _text_matches_pattern (Pattern.str (pyLower h)) req.host
          = (pyLower h == req.host)
      ∧ _host_matches { st with _host_patterns := [Pattern.str (pyLower h)] } req.host
          = (pyLower h == pyLower req.host) := by
  refine ⟨rfl, rfl, ?_⟩
  simp [_host_matches, _text_matches_pattern]

/-- Counterexample to claim C4: after a session, the request-construction
override (`ClientRequest.__init__`) is still the session's wrapper —
`__aexit__` restores only the resolver and the TLS-detection hooks. -/
theorem c4_counterexample :
    (aexitHooks
        (aenterHooks ⟨Hook.original "resolve", Hook.original "ssl", Hook.original "init"⟩).1
        (aenterHooks ⟨Hook.original "resolve", Hook.original "ssl", Hook.original "init"⟩).2
        none).1.request_init = Hook.requestInitMock
      ∧ Hook.requestInitMock ≠ Hook.original "init" :=
  ⟨rfl, by decide⟩

/-- Claim C4 (amended): on every exit of the session scope the network
name-resolution and TLS/SSL-detection overrides are restored to their
pre-session originals before the stored session exception is reported; the
request-construction override is NOT restored and remains installed. -/
theorem c4_restores_two_of_three (g : ClientGlobals) (exc : Option String) :
    (aexitHooks (aenterHooks g).1 (aenterHooks g).2 exc).1.resolve_host
        = g.resolve_host
      ∧ (aexitHooks (aenterHooks g).1 (aenterHooks g).2 exc).1.is_ssl = g.is_ssl
      ∧ (aexitHooks (aenterHooks g).1 (aenterHooks g).2 exc).1.request_init
          = Hook.requestInitMock
      ∧ (aexitHooks (aenterHooks g).1 (aenterHooks g).2 exc).2 = exc :=
  ⟨rfl, rfl, rfl, rfl⟩

/-- Counterexample to claim C5: the assignment to the exception slot in
`_find_response` is unconditional, so a second unmatched request replaces
the error stored by the first. -/
theorem c5_counterexample :
    (_find_response ResponsesMockServer.init reqOne).1._exception
        = some (noMatchMsg "one.com" "/" "GET" false false)
      ∧ (_find_response (_find_response ResponsesMockServer.init reqOne).1 reqTwo).1._exception
          ≠ some (noMatchMsg "one.com" "/" "GET" false false) :=
  ⟨rfl, by decide⟩

/-- Claim C5 (amended): the exception slot is empty at session start; a
matched request leaves it unchanged; every unmatched request stores its own
No-Match message, overwriting any previously stored error, and stops the
event loop (so under single-threaded operation no further request is served);
teardown reports exactly the stored slot. -/
theorem c5_exception_slot :
    ResponsesMockServer.init._exception = none
      ∧ (∀ (st : ResponsesMockServer) (req : Request) (v : PyValue),
          (_find_response st req).2 = Except.ok v →
            (_find_response st req).1._exception = st._exception)
      ∧ (∀ (st : ResponsesMockServer) (req : Request) (msg : String),
          (_find_response st req).2 = Except.error msg →
            (_find_response st req).1._exception = some msg
              ∧ (_find_response st req).1.loop_stopped = true)
      ∧ (∀ (g : ClientGlobals) (s : SavedHooks) (exc : Option String),
          (aexitHooks g s exc).2 = exc) := by
  refine ⟨rfl, ?_, ?_, fun _ _ _ => rfl⟩
  · intro st req v h
    rcases hfl : findLoop req st._responses false false with ⟨resp, rem, hmb, pmb⟩
    cases resp with
    | some w => simp [_find_response, hfl]
    | none => simp [_find_response, hfl] at h
  · intro st req msg h
    rcases hfl : findLoop req st._responses false false with ⟨resp, rem, hmb, pmb⟩
    cases resp with
    | some w => simp [_find_response, hfl] at h
    | none =>
      simp only [_find_response, hfl] at h ⊢
      injection h with h
      subst h
      exact ⟨rfl, trivial⟩

/-- Witness for C5 (amended) at a concrete unmatched request from the
initial state. -/
theorem c5_witness :
    (_find_response ResponsesMockServer.init reqOne).1._exception
        = some (noMatchMsg "one.com" "/" "GET" false false)
      ∧ (_find_response ResponsesMockServer.init reqOne).1.loop_stopped = true :=
  c5_exception_slot.2.2.1 ResponsesMockServer.init reqOne
    (noMatchMsg "one.com" "/" "GET" false false) rfl

end Aresponses

namespace Aresponses

/-- Claim C6: on a confirmed match, a plain-string response yields a response
with that string as body and the default success status 200; a callable is
called with the request and its result — awaited when the callable is a
coroutine function — is returned exactly; any other registered value is
returned as-is as the complete response. -/
theorem c6_producer_resolution (req : Request) :
    (∀ s : String, resolveResponse (Producer.value (PyValue.str s)) req
        = PyValue.response s 200)
      ∧ (∀ g : Request → PyValue, resolveResponse (Producer.coroFn g) req = g req)
      ∧ (∀ f : Request → PyValue, resolveResponse (Producer.syncFn f) req = f req)
      ∧ (∀ v : PyValue, (∀ s, v ≠ PyValue.str s) →
          resolveResponse (Producer.value v) req = v) := by
  refine ⟨fun _ => rfl, fun _ => rfl, fun _ => rfl, fun v hv => ?_⟩
  cases v with
  | str s => exact absurd rfl (hv s)
  | response b st => rfl
  | awaitable w => rfl
  | other t => rfl

/-- Witness for C6: the string `"hello"` becomes a status-200 response with
body `"hello"`, and a non-string response object is returned as-is. -/
theorem c6_witness :
    resolveResponse (Producer.value (PyValue.str "hello")) reqPing
        = PyValue.response "hello" 200
      ∧ resolveResponse (Producer.value (PyValue.response "x" 201)) reqPing
          = PyValue.response "x" 201 :=
  ⟨(c6_producer_resolution reqPing).1 "hello",
   (c6_producer_resolution reqPing).2.2.2 (PyValue.response "x" 201)
     (fun _ h => PyValue.noConfusion h)⟩

/-- Claim C7: with `match_querystring=False` path matching uses the request
path without its query string, so pattern `/foo` matches a request to
`/foo?x=1`; with `match_querystring=True` it uses `path_qs`, so `/foo` does
not match `/foo?x=1`. -/
theorem c7_match_querystring :
    (∀ (e : Expectation) (req : Request), e.match_querystring = false →
        pathMatches e req = _text_matches_pattern e.path req.path)
      ∧ (∀ (e : Expectation) (req : Request), e.match_querystring = true →
          pathMatches e req = _text_matches_pattern e.path req.path_qs)
      ∧ pathMatches { host := Pattern.any, path := Pattern.str "/foo",
                      method := Pattern.any,
                      response := Producer.value (PyValue.str ""),
                      match_querystring := false }
          ⟨"h", "/foo", "/foo?x=1", "GET"⟩ = true
      ∧ pathMatches { host := Pattern.any, path := Pattern.str "/foo",
                      method := Pattern.any,
                      response := Producer.value (PyValue.str ""),
                      match_querystring := true }
          ⟨"h", "/foo", "/foo?x=1", "GET"⟩ = false := by
  refine ⟨?_, ?_, by decide, by decide⟩
  · intro e req h
    simp [pathMatches, h]
  · intro e req h
    simp [pathMatches, h]

/-- Witness for C7 at the concrete `/foo` vs `/foo?x=1` instance with
`match_querystring=False`. -/
theorem c7_witness :
    pathMatches { host := Pattern.any, path := Pattern.str "/foo",
                  method := Pattern.any,
                  response := Producer.value (PyValue.str ""),
                  match_querystring := false }
        ⟨"h", "/foo", "/foo?x=1", "GET"⟩
      = _text_matches_pattern (Pattern.str "/foo") "/foo" :=
  c7_match_querystring.1 _ _ rfl

/-- Claim C8: the passthrough call relays the real status code and body, and
of the real response headers keeps only `content-type`: every header whose
lowercased name is not `content-type` (including the internal side-channel
header) is absent from the relayed response. -/
theorem c8_header_allowlist (r : RealResponse) :
    (passthroughRelay r).status = r.status
      ∧ (passthroughRelay r).text = r.text
      ∧ (∀ kv ∈ (passthroughRelay r).headers,
          kv ∈ r.headers ∧ pyLower kv.1 = "content-type")
      ∧ (∀ kv ∈ r.headers, pyLower kv.1 ≠ "content-type" →
          kv ∉ (passthroughRelay r).headers) := by
  refine ⟨rfl, rfl, ?_, ?_⟩
  · intro kv hkv
    simp only [passthroughRelay, List.mem_filter] at hkv
    refine ⟨hkv.1, ?_⟩
    have h2 := hkv.2
    simp [passthrough_headers, List.contains] at h2
    exact h2
  · intro kv _ hne hmem
    simp only [passthroughRelay, List.mem_filter] at hmem
    have h2 := hmem.2
    simp [passthrough_headers, List.contains] at h2
    exact hne h2

/-- Witness for C8: on a concrete real response, the status is relayed while
a custom header and the side-channel header are dropped. -/
theorem c8_witness :
    (passthroughRelay realResp).status = realResp.status
      ∧ ("X-Custom", "1") ∉ (passthroughRelay realResp).headers
      ∧ ("AResponsesIsSSL", "1") ∉ (passthroughRelay realResp).headers :=
  ⟨(c8_header_allowlist realResp).1,
   (c8_header_allowlist realResp).2.2.2 ("X-Custom", "1") (by decide) (by decide),
   (c8_header_allowlist realResp).2.2.2 ("AResponsesIsSSL", "1") (by decide) (by decide)⟩

/-- Claim C9: a request that fully matches no queued expectation makes
resolution raise the No-Match Error and leaves the expectation queue exactly
as it was: no entry is removed, reordered, or modified. -/
theorem c9_no_match_preserves_queue (st : ResponsesMockServer) (req : Request)
    (h : ∀ e ∈ st._responses, fullyMatches req e = false) :
    (_find_response st req).2
        = Except.error (noMatchMsg req.host req.path req.method
            (findLoop req st._responses false false).host_matched
            (findLoop req st._responses false false).path_matched)
      ∧ (_find_response st req).1._responses = st._responses := by
  obtain ⟨hresp, hrem⟩ := findLoop_all_skip req st._responses h false false
  rcases hfl : findLoop req st._responses false false with ⟨resp, rem, hmb, pmb⟩
  rw [hfl] at hresp hrem
  simp only [] at hresp hrem
  subst hresp
  subst hrem
  exact ⟨by simp [_find_response, hfl], by simp [_find_response, hfl]⟩

/-- Witness for C9: a request to an unregistered host against the two-entry
queue raises and leaves the queue untouched. -/
theorem c9_witness :
    (_find_response st2 reqOther).2
        = Except.error (noMatchMsg reqOther.host reqOther.path reqOther.method
            (findLoop reqOther st2._responses false false).host_matched
            (findLoop reqOther st2._responses false false).path_matched)
      ∧ (_find_response st2 reqOther).1._responses = st2._responses :=
  c9_no_match_preserves_queue st2 reqOther (by
    intro e he
    have he' : e ∈ [E1c, E2c] := he
    rcases List.mem_cons.mp he' with h1 | h2
    · subst h1; decide
    · rcases List.mem_cons.mp h2 with h3 | h4
      · subst h3; decide
      · cases h4)

/-- Claim C10: a callable that is not a coroutine function has its call
result returned as the response without awaiting it (an awaitable result
stays unawaited); only coroutine functions are awaited. -/
theorem c10_sync_call_not_awaited :
    (∀ (f : Request → PyValue) (req : Request),
        resolveResponse (Producer.syncFn f) req = callProducer (Producer.syncFn f) req)
      ∧ (∀ (v : PyValue) (req : Request),
          resolveResponse (Producer.syncFn fun _ => PyValue.awaitable v) req
            = PyValue.awaitable v)
      ∧ (∀ (g : Request → PyValue) (req : Request),
          callProducer (Producer.coroFn g) req = PyValue.awaitable (g req)
            ∧ resolveResponse (Producer.coroFn g) req
                = pyAwait (callProducer (Producer.coroFn g) req)
            ∧ resolveResponse (Producer.coroFn g) req = g req) :=
  ⟨fun _ _ => rfl, fun _ _ => rfl, fun _ _ => ⟨rfl, rfl, rfl⟩⟩

end Aresponses
